import Mathlib

set_option maxRecDepth 1000000

/-!
Verification of the InfoScraper2 scrape pipeline (src/InfoScraper2.py)
against its natural-language specification.

The Python source is shallowly embedded: pure functions become Lean
functions, stateful code becomes explicit state passing, network and
filesystem effects are supplied by an explicit environment, and machine
integers are `Nat` with explicit `% 2^32` where overflow matters
(SHA-256).  External collaborators (HTML parsing, language detection,
image decoding) enter only through their narrow contracts, as oracle
fields of the environment, exactly as the code consumes them.
-/

namespace InfoScraper

/-- Mirror of the `CONFIG` dictionary at the top of src/InfoScraper2.py. -/
structure Config where
  minTextLength : Nat
  allowedLanguages : List String
  blocklistPhrases : List String
  maxTextStorage : Nat
  retryAttempts : Nat
  retryBackoff : Nat
  deriving Repr, DecidableEq

/-- The concrete `CONFIG` values from src/InfoScraper2.py lines 25-43. -/
def CONFIG : Config :=
  { minTextLength := 500
    allowedLanguages := ["en"]
    blocklistPhrases := ["lorem ipsum", "test content"]
    maxTextStorage := 1000
    retryAttempts := 3
    retryBackoff := 2 }

/-! ### String helpers

The Python code uses `str.split`, `str.lower`, `str.startswith` and the
substring operator `in`.  They are embedded as structurally recursive
functions over `List Char` so that the kernel can evaluate them. -/

/-- Python `s.split(c)` for a single-character separator `c`. -/
def splitOnChar (c : Char) : List Char → List (List Char)
  | [] => [[]]
  | x :: xs =>
    let rest := splitOnChar c xs
    if x = c then [] :: rest
    else
      match rest with
      | [] => [[x]]
      | r :: rs => (x :: r) :: rs

/-- Python `needle in hay` on strings: substring containment. -/
def isSubstring (needle hay : List Char) : Bool :=
  match hay with
  | [] => needle.isEmpty
  | _ :: tl => needle.isPrefixOf hay || isSubstring needle tl

/-- Python `s.lower()` restricted to ASCII (the configured phrases are
ASCII; `Char.toLower` matches CPython on that range). -/
def pyLower (s : String) : String :=
  String.mk (s.data.map Char.toLower)

/-- Python `s.startswith(p)`. -/
def pyStartsWith (s p : String) : Bool :=
  p.data.isPrefixOf s.data

/-- Python `phrase in text` on strings. -/
def pyContains (hay needle : String) : Bool :=
  isSubstring needle.data hay.data

/-- `url.split('/')[2]` from `scrape_page` line 240, returning `none`
where Python would raise `IndexError` (caught by the task's outer
`except`). -/
def extractDomain (url : String) : Option String :=
  ((splitOnChar '/' url.data).get? 2).map String.mk

/-! ### SHA-256 (`hashlib.sha256(content).hexdigest()`, line 156)

A faithful executable SHA-256 over byte lists, words as `Nat` reduced
mod `2^32`. -/

/-- 32-bit modular addition. -/
def add32 (a b : Nat) : Nat := (a + b) % 4294967296

/-- 32-bit right rotation. -/
def rotr32 (n x : Nat) : Nat := ((x >>> n) ||| (x <<< (32 - n))) % 4294967296

/-- 32-bit bitwise complement. -/
def not32 (x : Nat) : Nat := x ^^^ 4294967295

/-- SHA-256 Σ0. -/
def bsig0 (x : Nat) : Nat := rotr32 2 x ^^^ rotr32 13 x ^^^ rotr32 22 x

/-- SHA-256 Σ1. -/
def bsig1 (x : Nat) : Nat := rotr32 6 x ^^^ rotr32 11 x ^^^ rotr32 25 x

/-- SHA-256 σ0. -/
def ssig0 (x : Nat) : Nat := rotr32 7 x ^^^ rotr32 18 x ^^^ (x >>> 3)

/-- SHA-256 σ1. -/
def ssig1 (x : Nat) : Nat := rotr32 17 x ^^^ rotr32 19 x ^^^ (x >>> 10)

/-- SHA-256 Ch. -/
def chFn (e f g : Nat) : Nat := (e &&& f) ^^^ (not32 e &&& g)

/-- SHA-256 Maj. -/
def majFn (a b c : Nat) : Nat := (a &&& b) ^^^ (a &&& c) ^^^ (b &&& c)

/-- The 64 SHA-256 round constants (decimal). -/
def sha256K : List Nat :=
  [1116352408, 1899447441, 3049323471, 3921009573,
   961987163, 1508970993, 2453635748, 2870763221,
   3624381080, 310598401, 607225278, 1426881987,
   1925078388, 2162078206, 2614888103, 3248222580,
   3835390401, 4022224774, 264347078, 604807628,
   770255983, 1249150122, 1555081692, 1996064986,
   2554220882, 2821834349, 2952996808, 3210313671,
   3336571891, 3584528711, 113926993, 338241895,
   666307205, 773529912, 1294757372, 1396182291,
   1695183700, 1986661051, 2177026350, 2456956037,
   2730485921, 2820302411, 3259730800, 3345764771,
   3516065817, 3600352804, 4094571909, 275423344,
   430227734, 506948616, 659060556, 883997877,
   958139571, 1322822218, 1537002063, 1747873779,
   1955562222, 2024104815, 2227730452, 2361852424,
   2428436474, 2756734187, 3204031479, 3329325298]

/-- The eight chaining words of a SHA-256 state. -/
structure HashState where
  a : Nat
  b : Nat
  c : Nat
  d : Nat
  e : Nat
  f : Nat
  g : Nat
  h : Nat
  deriving Repr, DecidableEq

/-- The SHA-256 initial hash value (decimal). -/
def sha256H0 : HashState :=
  ⟨1779033703, 3144134277, 1013904242, 2773480762,
   1359893119, 2600822924, 528734635, 1541459225⟩

/-- `k` big-endian bytes of `n`. -/
def beBytes (k n : Nat) : List Nat :=
  (List.range k).map (fun i => (n >>> (8 * (k - 1 - i))) % 256)

/-- SHA-256 message padding: `0x80`, zeros to 56 mod 64, then the
64-bit big-endian bit length. -/
def sha256Pad (msg : List Nat) : List Nat :=
  let z := (56 + 64 - (msg.length + 1) % 64) % 64
  msg ++ [0x80] ++ List.replicate z 0 ++ beBytes 8 (8 * msg.length)

/-- Four big-endian bytes per 32-bit word. -/
def bytesToWords : List Nat → List Nat
  | b0 :: b1 :: b2 :: b3 :: rest =>
    (((b0 * 256 + b1) * 256 + b2) * 256 + b3) :: bytesToWords rest
  | _ => []

/-- Split a word list into 16-word blocks (structural recursion on a
fuel bound so the kernel can evaluate it; `fuel = ws.length` always
suffices since every step consumes at least one element). -/
def chunks16Fuel : Nat → List Nat → List (List Nat)
  | 0, _ => []
  | _, [] => []
  | fuel + 1, w :: rest => (w :: rest.take 15) :: chunks16Fuel fuel (rest.drop 15)

/-- Split a word list into 16-word blocks. -/
def chunks16 (ws : List Nat) : List (List Nat) :=
  chunks16Fuel ws.length ws

/-- Extend a 16-word block to the 64-word message schedule. -/
def extendSchedule (block : List Nat) : List Nat :=
  (List.range 48).foldl
    (fun acc _ =>
      let n := acc.length
      acc ++ [add32 (add32 (ssig1 (acc.getD (n - 2) 0)) (acc.getD (n - 7) 0))
                    (add32 (ssig0 (acc.getD (n - 15) 0)) (acc.getD (n - 16) 0))])
    block

/-- One SHA-256 round. -/
def sha256Round (st : HashState) (kw : Nat × Nat) : HashState :=
  let t1 := add32 st.h (add32 (bsig1 st.e)
                (add32 (chFn st.e st.f st.g) (add32 kw.1 kw.2)))
  let t2 := add32 (bsig0 st.a) (majFn st.a st.b st.c)
  ⟨add32 t1 t2, st.a, st.b, st.c, add32 st.d t1, st.e, st.f, st.g⟩

/-- Compress one 16-word block into the chaining state. -/
def compressBlock (h0 : HashState) (block : List Nat) : HashState :=
  let w := extendSchedule block
  let st := (sha256K.zip w).foldl sha256Round h0
  ⟨add32 h0.a st.a, add32 h0.b st.b, add32 h0.c st.c, add32 h0.d st.d,
   add32 h0.e st.e, add32 h0.f st.f, add32 h0.g st.g, add32 h0.h st.h⟩

/-- Lowercase hex digit, as CPython's `hexdigest` produces. -/
def hexChar (n : Nat) : Char :=
  if n < 10 then Char.ofNat (48 + n) else Char.ofNat (87 + n)

/-- `k` lowercase hex digits of `n`, most significant first. -/
def toHexFixed : Nat → Nat → List Char
  | 0, _ => []
  | k + 1, n => toHexFixed k (n / 16) ++ [hexChar (n % 16)]

/-- `hashlib.sha256(content).hexdigest()`: the 64-character lowercase
hex digest of a byte list. -/
def sha256hex (msg : List Nat) : String :=
  let final := (chunks16 (bytesToWords (sha256Pad msg))).foldl compressBlock sha256H0
  String.mk (([final.a, final.b, final.c, final.d,
               final.e, final.f, final.g, final.h].map (toHexFixed 8)).flatten)

/-! ### StorageManager (src/InfoScraper2.py lines 57-109) -/

/-- A text record as assembled in `scrape_page` lines 263-268
(the ISO timestamp is an opaque string supplied by the clock). -/
structure TextRecord where
  url : String
  content : String
  timestamp : String
  sourceDomain : String
  deriving Repr, DecidableEq

/-- An image metadata record as assembled in `ImageDownloader.download`
lines 159-166. -/
structure ImageRecord where
  url : String
  filename : String
  dimensions : Nat × Nat
  format : String
  sourceDomain : String
  timestamp : String
  deriving Repr, DecidableEq

/-- State of a `StorageManager` instance: the in-memory text buffer, the
batches flushed so far (each flush writes one batch per enabled format;
we record the batch contents once), the image metadata ledger and the
image files written. -/
structure Storage where
  maxStorage : Nat
  textStorage : List TextRecord
  flushedBatches : List (List TextRecord)
  imageStorage : List ImageRecord
  imageFiles : List (String × List Nat)   -- (filename, bytes) written to disk
  deriving Repr, DecidableEq

/-- `StorageManager.flush_text_storage` (lines 78-94): no-op on an empty
buffer, otherwise writes the whole buffer as one batch and clears it. -/
def flushTextStorage (s : Storage) : Storage :=
  if s.textStorage.isEmpty then s
  else { s with flushedBatches := s.flushedBatches ++ [s.textStorage]
                textStorage := [] }

/-- `StorageManager.store_text` (lines 73-76): append, then flush once
the buffer length reaches `max_storage`. -/
def storeText (s : Storage) (r : TextRecord) : Storage :=
  let s' := { s with textStorage := s.textStorage ++ [r] }
  if s'.textStorage.length ≥ s'.maxStorage then flushTextStorage s' else s'

/-- `StorageManager.store_image` (lines 96-109): always append the
metadata, then attempt the file write; a write failure is logged and not
raised (`writeOk` is the filesystem oracle). -/
def storeImage (writeOk : String → Bool) (s : Storage)
    (record : ImageRecord) (content : List Nat) : Storage :=
  let s' := { s with imageStorage := s.imageStorage ++ [record] }
  if writeOk record.filename then
    { s' with imageFiles := s'.imageFiles ++ [(record.filename, content)] }
  else s'

/-! ### validate_content (src/InfoScraper2.py lines 206-220) -/

/-- `AIDataScraper.validate_content`.  `detect` is the langdetect
oracle; `none` models `detect` raising (caught at lines 217-219). -/
def validateContent (cfg : Config) (detect : String → Option String)
    (text : String) : Bool :=
  if text.length < cfg.minTextLength then false
  else if cfg.blocklistPhrases.any (fun phrase =>
      pyContains (pyLower text) (pyLower phrase)) then false
  else
    match detect text with
    | none => false
    | some lang => lang ∈ cfg.allowedLanguages

/-! ### urllib.robotparser (called by `get_robots_parser`, lines 197-204)

`AIDataScraper.get_robots_parser` delegates entirely to CPython's
`urllib.robotparser.RobotFileParser`; the claims about robots handling
hinge on that library's exact semantics, so its `read`, `parse` and
`can_fetch` are embedded here following the CPython implementation.
Percent (un)quoting is omitted: it is the identity on the unescaped
URLs and robots.txt paths in scope. -/

/-- Result of `urllib.request.urlopen` on the robots.txt URL inside
`RobotFileParser.read`: a decoded body, an `HTTPError` (handled inside
`read`), or any other raised error (propagates out of `read` and is
caught at lines 202-203 of the scraper). -/
inductive RobotsReadOutcome where
  | ok (lines : List String)
  | httpErr (code : Nat)
  | raised (msg : String)
  deriving Repr, DecidableEq

/-- `urllib.robotparser.RuleLine`. -/
structure RuleLine where
  path : String
  allowance : Bool
  deriving Repr, DecidableEq

/-- `RuleLine.__init__`: an empty Disallow line means allow all. -/
def mkRuleLine (path : String) (allowance : Bool) : RuleLine :=
  ⟨path, if path = "" ∧ allowance = false then true else allowance⟩

/-- `RuleLine.applies_to`. -/
def ruleLineApplies (rl : RuleLine) (filename : String) : Bool :=
  rl.path = "*" || pyStartsWith filename rl.path

/-- `urllib.robotparser.Entry`. -/
structure RobotsEntry where
  useragents : List String
  rulelines : List RuleLine
  deriving Repr, DecidableEq

/-- `Entry.applies_to`: split the agent at the first `/`, lowercase,
then match a `*` group or a substring occurrence. -/
def entryApplies (e : RobotsEntry) (useragent : String) : Bool :=
  let agent := pyLower (String.mk (useragent.data.takeWhile (· ≠ '/')))
  e.useragents.any (fun ag => ag = "*" || pyContains agent (pyLower ag))

/-- `Entry.allowance`: first matching rule line wins, default allow. -/
def entryAllowance (e : RobotsEntry) (filename : String) : Bool :=
  match e.rulelines.find? (fun rl => ruleLineApplies rl filename) with
  | some rl => rl.allowance
  | none => true

/-- State of a `RobotFileParser` instance (the fields consulted by
`can_fetch`; `lastChecked` is the truthiness of `last_checked`). -/
structure RFP where
  lastChecked : Bool
  disallowAll : Bool
  allowAll : Bool
  entries : List RobotsEntry
  defaultEntry : Option RobotsEntry
  deriving Repr, DecidableEq

/-- The state of a freshly constructed `RobotFileParser()`. -/
def initRFP : RFP := ⟨false, false, false, [], none⟩

/-- `RobotFileParser._add_entry`. -/
def robotsAddEntry (entries : List RobotsEntry)
    (defaultEntry : Option RobotsEntry) (e : RobotsEntry) :
    List RobotsEntry × Option RobotsEntry :=
  if "*" ∈ e.useragents then
    match defaultEntry with
    | none => (entries, some e)
    | some d => (entries, some d)
  else (entries ++ [e], defaultEntry)

/-- Intermediate state of `RobotFileParser.parse`'s line loop. -/
structure RobotsParseState where
  state : Nat
  cur : RobotsEntry
  entries : List RobotsEntry
  defaultEntry : Option RobotsEntry

/-- True for the characters Python `str.strip()` removes. -/
def isPySpace (c : Char) : Bool :=
  c = ' ' || c = '\t' || c = '\n' || c = '\r' || c = '\x0b' || c = '\x0c'

/-- Python `s.strip()`. -/
def pyStrip (l : List Char) : List Char :=
  ((l.dropWhile isPySpace).reverse.dropWhile isPySpace).reverse

/-- Python `s.split(':', 1)` when a colon is present. -/
def splitFirstColon : List Char → Option (List Char × List Char)
  | [] => none
  | c :: cs =>
    if c = ':' then some ([], cs)
    else (splitFirstColon cs).map (fun p => (c :: p.1, p.2))

/-- One iteration of the line loop in `RobotFileParser.parse`. -/
def robotsParseLine (st : RobotsParseState) (line : String) : RobotsParseState :=
  let st :=
    if line.data.isEmpty then
      if st.state = 1 then { st with cur := ⟨[], []⟩, state := 0 }
      else if st.state = 2 then
        let p := robotsAddEntry st.entries st.defaultEntry st.cur
        { state := 0, cur := ⟨[], []⟩, entries := p.1, defaultEntry := p.2 }
      else st
    else st
  let l := pyStrip (line.data.takeWhile (· ≠ '#'))
  if l.isEmpty then st
  else
    match splitFirstColon l with
    | none => st
    | some (k, v) =>
      let key := pyLower (String.mk (pyStrip k))
      let value := String.mk (pyStrip v)
      if key = "user-agent" then
        let st :=
          if st.state = 2 then
            let p := robotsAddEntry st.entries st.defaultEntry st.cur
            { st with cur := ⟨[], []⟩, entries := p.1, defaultEntry := p.2 }
          else st
        { st with cur := { st.cur with useragents := st.cur.useragents ++ [value] }
                  state := 1 }
      else if key = "disallow" then
        if st.state ≠ 0 then
          { st with cur := { st.cur with
                             rulelines := st.cur.rulelines ++ [mkRuleLine value false] }
                    state := 2 }
        else st
      else if key = "allow" then
        if st.state ≠ 0 then
          { st with cur := { st.cur with
                             rulelines := st.cur.rulelines ++ [mkRuleLine value true] }
                    state := 2 }
        else st
      else st

/-- `RobotFileParser.parse`: runs the line state machine and marks the
parser as checked (`parse` calls `modified()`). -/
def parseRobots (lines : List String) : RFP :=
  let st := lines.foldl robotsParseLine ⟨0, ⟨[], []⟩, [], none⟩
  let p :=
    if st.state = 2 then robotsAddEntry st.entries st.defaultEntry st.cur
    else (st.entries, st.defaultEntry)
  { lastChecked := true, disallowAll := false, allowAll := false,
    entries := p.1, defaultEntry := p.2 }

/-- `RobotFileParser.read` composed with the scraper's
`get_robots_parser` (lines 197-204): an `HTTPError` is absorbed inside
`read` (401/403 disallow all, other 4xx allow all, 5xx nothing); any
other raised error is caught by the scraper's `except`, which logs a
warning and returns the parser untouched. -/
def getRobotsParser (outcome : RobotsReadOutcome) : RFP :=
  match outcome with
  | .ok lines => parseRobots lines
  | .httpErr code =>
    if code = 401 ∨ code = 403 then { initRFP with disallowAll := true }
    else if 400 ≤ code ∧ code < 500 then { initRFP with allowAll := true }
    else initRFP
  | .raised _ => initRFP

/-- The path-and-after component `can_fetch` extracts from the checked
URL (`urlparse`/`urlunparse`; quoting omitted as identity). -/
def urlPathOf (url : String) : String :=
  let p := (url.data.dropWhile (· ≠ '/')).drop 2   -- skip "scheme:" and "//"
  let path := p.dropWhile (· ≠ '/')
  if path.isEmpty then "/" else String.mk path

/-- `RobotFileParser.can_fetch`. -/
def canFetch (rp : RFP) (useragent url : String) : Bool :=
  if rp.disallowAll then false
  else if rp.allowAll then true
  else if rp.lastChecked = false then false
  else
    let filename := urlPathOf url
    match rp.entries.find? (fun e => entryApplies e useragent) with
    | some e => entryAllowance e filename
    | none =>
      match rp.defaultEntry with
      | some e => entryAllowance e filename
      | none => true

/-! ### HTTP fetch: urllib3 Retry adapter and `retry_request`

`_init_session` (lines 185-195) mounts an `HTTPAdapter` with
`Retry(total=retry_attempts, status_forcelist=[429,500,502,503,504])`,
so one `session.get` internally retries those statuses and raises once
the budget is exhausted.  `retry_request` (lines 222-235) is a second,
wrapper-level loop of `retry_attempts` attempts around the whole
`session.get` call. -/

/-- A parsed page as the narrow bs4/textacy contract delivers it to the
scraper: the extracted-and-cleaned main text and the `src` attribute of
each `<img>` element in document order (`none` = attribute absent). -/
structure Page where
  cleanedText : String
  imgSrcs : List (Option String)
  deriving Repr, DecidableEq

/-- A `requests` response. -/
structure HttpResponse where
  status : Nat
  page : Page
  deriving Repr, DecidableEq

/-- `response.raise_for_status()`: raises on any 4xx/5xx status. -/
def raiseForStatus (r : HttpResponse) : Except String HttpResponse :=
  if 400 ≤ r.status then .error ("HTTPError: " ++ toString r.status) else .ok r

/-- What the server does to one wire-level request. -/
inductive WireOutcome where
  | status (code : Nat) (page : Page)
  | netErr (msg : String)
  deriving Repr, DecidableEq

/-- `status_forcelist` from `_init_session` line 190. -/
def statusForcelist : List Nat := [429, 500, 502, 503, 504]

/-- The urllib3 `Retry` loop inside one `session.get`: `remaining`
retries left after the current request; a forcelisted status or network
error consumes one, and the call raises once none remain.  `server i`
is the outcome of the `i`-th wire request of this call. -/
def sessionGetAux (server : Nat → WireOutcome) :
    (remaining : Nat) → (i : Nat) → Except String HttpResponse
  | remaining, i =>
    match server i with
    | .netErr m =>
      match remaining with
      | 0 => .error ("MaxRetryError: " ++ m)
      | r + 1 => sessionGetAux server r (i + 1)
    | .status code page =>
      if code ∈ statusForcelist then
        match remaining with
        | 0 => .error "RetryError: too many error responses"
        | r + 1 => sessionGetAux server r (i + 1)
      else .ok ⟨code, page⟩

/-- `session.get` through the retry adapter of `_init_session`:
`total` is the configured `retry_attempts`. -/
def sessionGet (total : Nat) (server : Nat → WireOutcome) :
    Except String HttpResponse :=
  sessionGetAux server total 0

/-- The `for attempt in range(1, attempts + 1)` loop of
`retry_request`, also counting how many times `func` is called.
`f attempt` is the outcome of the call made on attempt `attempt`. -/
def retryRequestFrom (f : Nat → Except String α) :
    (attempt remaining : Nat) → Except String α × Nat
  | _, 0 => (.error "Maximum retry attempts reached.", 0)
  | attempt, r + 1 =>
    match f attempt with
    | .ok v => (.ok v, 1)
    | .error _ =>
      let p := retryRequestFrom f (attempt + 1) r
      (p.1, p.2 + 1)

/-- `AIDataScraper.retry_request` (lines 222-235), paired with the
number of calls it makes to `func`. -/
def retryRequest (attempts : Nat) (f : Nat → Except String α) :
    Except String α × Nat :=
  retryRequestFrom f 1 attempts

/-! ### ImageDownloader and scrape_page -/

/-- What PIL reports about a decoded image (`Image.open` + `verify`);
decoding is the external-collaborator contract of PIL. -/
structure ImgInfo where
  format : String
  width : Nat
  height : Nat
  deriving Repr, DecidableEq

/-- The filename built at line 157:
`f"{domain}_{content_hash}.{img.format.lower()}"`. -/
def imageFilename (domain : String) (content : List Nat) (fmt : String) :
    String :=
  domain ++ "_" ++ sha256hex content ++ "." ++ pyLower fmt

/-- The effectful environment of one run: everything the scraper
observes from the network, the parsing/detection/decoding libraries,
the filesystem and the clock. -/
structure Env where
  robotsRead : String → RobotsReadOutcome
  fetchPage : String → Nat → Except String HttpResponse
  detect : String → Option String
  imageGet : String → Except String (Nat × List Nat)
  decodeImage : List Nat → Option ImgInfo
  writeOk : String → Bool
  now : String

/-- Mutable state threaded through a run: the storage manager, the
domains for which a robots.txt read was performed, and the log. -/
structure ScrapeState where
  storage : Storage
  robotsFetched : List String
  logs : List String
  deriving Repr, DecidableEq

/-- Append one log line. -/
def addLog (st : ScrapeState) (line : String) : ScrapeState :=
  { st with logs := st.logs ++ [line] }

/-- `ImageDownloader.download` (lines 146-169): fetch, raise for
status, decode-verify, hash, name, store; every failure is absorbed by
the method's own `except` and only logged. -/
def downloadImage (env : Env) (st : ScrapeState) (url domain : String) :
    ScrapeState :=
  match env.imageGet url with
  | .error _ => addLog st ("ERROR Error downloading image " ++ url)
  | .ok (status, content) =>
    if 400 ≤ status then addLog st ("ERROR Error downloading image " ++ url)
    else
      match env.decodeImage content with
      | none => addLog st ("ERROR Error downloading image " ++ url)
      | some info =>
        let record : ImageRecord :=
          { url := url
            filename := imageFilename domain content info.format
            dimensions := (info.width, info.height)
            format := info.format
            sourceDomain := domain
            timestamp := env.now }
        let st' :=
          { st with storage := storeImage env.writeOk st.storage record content }
        if env.writeOk record.filename then
          addLog st' ("INFO Saved image " ++ record.filename)
        else addLog st' ("ERROR Error saving image " ++ record.filename)

/-- The `<img>` loop of `scrape_page` (lines 274-278): download only
when the `src` attribute is present, truthy and starts with `http`. -/
def processImgTag (env : Env) (domain : String) (st : ScrapeState)
    (src : Option String) : ScrapeState :=
  match src with
  | none => st
  | some s =>
    if s ≠ "" ∧ pyStartsWith s "http" then downloadImage env st s domain
    else st

/-- `AIDataScraper.scrape_page` (lines 237-281): robots check, rate
limit (time only, not modelled), fetch through `retry_request`,
validate-and-store, image loop; the outer `except` turns any raised
error into one logged line. -/
def scrapePage (cfg : Config) (env : Env) (st : ScrapeState)
    (url : String) : ScrapeState :=
  match extractDomain url with
  | none => addLog st ("ERROR Error scraping " ++ url)
  | some domain =>
    let st := { st with robotsFetched := st.robotsFetched ++ [domain] }
    let st :=
      match env.robotsRead domain with
      | .raised _ =>
        addLog st ("WARNING Could not read robots.txt from https://" ++ domain)
      | _ => st
    let rp := getRobotsParser (env.robotsRead domain)
    if canFetch rp "*" url = false then
      addLog st ("WARNING Skipping " ++ url ++ " due to robots.txt restrictions")
    else
      match (retryRequest cfg.retryAttempts (env.fetchPage url)).1 with
      | .error _ => addLog st ("ERROR Error scraping " ++ url)
      | .ok resp =>
        match raiseForStatus resp with
        | .error _ => addLog st ("ERROR Error scraping " ++ url)
        | .ok resp =>
          let cleaned := resp.page.cleanedText
          let st :=
            if validateContent cfg env.detect cleaned then
              let record : TextRecord :=
                { url := url, content := cleaned,
                  timestamp := env.now, sourceDomain := domain }
              addLog { st with storage := storeText st.storage record }
                ("INFO Scraped and stored text from " ++ url)
            else
              addLog st ("INFO Content at " ++ url ++ " did not pass validation.")
          resp.page.imgSrcs.foldl (processImgTag env domain) st

/-- The fresh `AIDataScraper()` state. -/
def initState (cfg : Config) : ScrapeState :=
  { storage := { maxStorage := cfg.maxTextStorage, textStorage := [],
                 flushedBatches := [], imageStorage := [], imageFiles := [] }
    robotsFetched := []
    logs := [] }

/-- `AIDataScraper.run` (lines 283-290): every seed URL is submitted
and awaited; `scrape_page` never raises, so the per-future `except` is
dead.  The pool's interleaving is sequentialized in this embedding. -/
def runScraper (cfg : Config) (env : Env) (st : ScrapeState)
    (urls : List String) : ScrapeState :=
  urls.foldl (scrapePage cfg env) st

/-- The `__main__` block (lines 295-304): run all seeds, then one final
`flush_text_storage`. -/
def mainRun (cfg : Config) (env : Env) (urls : List String) : ScrapeState :=
  let st := runScraper cfg env (initState cfg) urls
  { st with storage := flushTextStorage st.storage }

/-! ### Concrete scenario data -/

/-- "a particular image acquisition fails": the GET raises, or the
status is 4xx/5xx, or the payload does not decode as an image —
the three failure classes absorbed by `ImageDownloader.download`. -/
def imageAcquireFails (env : Env) (url : String) : Prop :=
  (∃ e, env.imageGet url = .error e) ∨
  (∃ status content, env.imageGet url = .ok (status, content) ∧ 400 ≤ status) ∨
  (∃ status content, env.imageGet url = .ok (status, content) ∧ status < 400 ∧
      env.decodeImage content = none)

/-- 600 characters of valid article text. -/
def scenText : String := String.mk (List.replicate 600 'a')

/-- A page with no images. -/
def emptyPage : Page := ⟨"", []⟩

/-- Seed URL answered with HTTP 200 in the two-page scenario. -/
def goodUrl : String := "https://example.com/a"

/-- Seed URL answered with HTTP 404 in the two-page scenario. -/
def badUrl : String := "https://example.com/b"

/-- Spec §8 scenario environment: two seed URLs on one domain, an
empty robots.txt, one 200 answer with 600 characters of English text,
one 404 answer. -/
def twoPageEnv : Env :=
  { robotsRead := fun _ => .ok []
    fetchPage := fun u _ =>
      if u = goodUrl then .ok ⟨200, ⟨scenText, []⟩⟩ else .ok ⟨404, emptyPage⟩
    detect := fun _ => some "en"
    imageGet := fun _ => .error "ConnectionError"
    decodeImage := fun _ => none
    writeOk := fun _ => true
    now := "2026-01-01T00:00:00" }

/-- The one record the two-page scenario stores. -/
def scenRecord : TextRecord :=
  ⟨goodUrl, scenText, "2026-01-01T00:00:00", "example.com"⟩

/-- The 8-byte PNG signature, standing in for a small valid PNG. -/
def pngBytes : List Nat := [137, 80, 78, 71, 13, 10, 26, 10]

/-- Spec §8 image scenario environment: one `<img>` URL serves a valid
PNG, any other answers 404; only the PNG payload decodes. -/
def imgEnv : Env :=
  { robotsRead := fun _ => .ok []
    fetchPage := fun _ _ => .ok ⟨404, emptyPage⟩
    detect := fun _ => some "en"
    imageGet := fun u =>
      if u = "https://example.com/good.png" then .ok (200, pngBytes)
      else .ok (404, [])
    decodeImage := fun c => if c = pngBytes then some ⟨"PNG", 1, 1⟩ else none
    writeOk := fun _ => true
    now := "2026-01-01T00:00:00" }

/-- An environment whose robots.txt read raises for every domain. -/
def robotsErrEnv : Env :=
  { twoPageEnv with robotsRead := fun _ => .raised "timed out" }

/-- An environment whose every page fetch raises. -/
def fetchErrEnv : Env :=
  { twoPageEnv with fetchPage := fun _ _ => .error "ConnectionError" }

/-! ## Helper lemmas -/

theorem toHexFixed_length (k n : Nat) : (toHexFixed k n).length = k := by
  induction k generalizing n with
  | zero => rfl
  | succ k ih => simp [toHexFixed, ih]

theorem sha256hex_data_length (msg : List Nat) :
    (sha256hex msg).data.length = 64 := by
  simp [sha256hex, toHexFixed_length]

theorem string_data_inj {s t : String} (h : s.data = t.data) : s = t := by
  cases s
  cases t
  exact congrArg String.mk h

theorem addLog_storage (st : ScrapeState) (l : String) :
    (addLog st l).storage = st.storage := rfl

theorem addLog_robotsFetched (st : ScrapeState) (l : String) :
    (addLog st l).robotsFetched = st.robotsFetched := rfl

theorem retryRequestFrom_all_error {α : Type} (f : Nat → Except String α)
    (h : ∀ i, ∃ e, f i = .error e) :
    ∀ r a, retryRequestFrom f a r = (.error "Maximum retry attempts reached.", r) := by
  intro r
  induction r with
  | zero => intro a; rfl
  | succ r ih =>
    intro a
    obtain ⟨e, he⟩ := h a
    simp [retryRequestFrom, he, ih (a + 1)]

theorem downloadImage_proj (env : Env) (st : ScrapeState) (url domain : String) :
    (downloadImage env st url domain).storage.textStorage = st.storage.textStorage ∧
    (downloadImage env st url domain).storage.flushedBatches = st.storage.flushedBatches ∧
    (downloadImage env st url domain).robotsFetched = st.robotsFetched := by
  cases hig : env.imageGet url with
  | error e => simp [downloadImage, hig, addLog]
  | ok p =>
    obtain ⟨status, content⟩ := p
    by_cases hs : 400 ≤ status
    · simp [downloadImage, hig, hs, addLog]
    · cases hdec : env.decodeImage content with
      | none => simp [downloadImage, hig, hs, hdec, addLog]
      | some info =>
        by_cases hw : env.writeOk (imageFilename domain content info.format)
        · simp [downloadImage, hig, hs, hdec, hw, addLog, storeImage]
        · simp [downloadImage, hig, hs, hdec, hw, addLog, storeImage]

theorem downloadImage_storage_congr (env : Env) (st st' : ScrapeState)
    (url domain : String) (hst : st.storage = st'.storage) :
    (downloadImage env st url domain).storage
      = (downloadImage env st' url domain).storage := by
  cases hig : env.imageGet url with
  | error e => simp [downloadImage, hig, addLog, hst]
  | ok p =>
    obtain ⟨status, content⟩ := p
    by_cases hs : 400 ≤ status
    · simp [downloadImage, hig, hs, addLog, hst]
    · cases hdec : env.decodeImage content with
      | none => simp [downloadImage, hig, hs, hdec, addLog, hst]
      | some info =>
        by_cases hw : env.writeOk (imageFilename domain content info.format)
        · simp [downloadImage, hig, hs, hdec, hw, addLog, storeImage, hst]
        · simp [downloadImage, hig, hs, hdec, hw, addLog, storeImage, hst]

theorem downloadImage_fail (env : Env) (st : ScrapeState) (url domain : String)
    (hfail : imageAcquireFails env url) :
    (downloadImage env st url domain).storage = st.storage ∧
    (downloadImage env st url domain).logs
      = st.logs ++ ["ERROR Error downloading image " ++ url] := by
  rcases hfail with ⟨e, hig⟩ | ⟨status, content, hig, hs⟩ | ⟨status, content, hig, hs, hdec⟩
  · simp [downloadImage, hig, addLog]
  · simp [downloadImage, hig, hs, addLog]
  · simp [downloadImage, hig, Nat.not_le.mpr hs, hdec, addLog]

theorem processImgTag_proj (env : Env) (domain : String) (st : ScrapeState)
    (src : Option String) :
    (processImgTag env domain st src).storage.textStorage = st.storage.textStorage ∧
    (processImgTag env domain st src).storage.flushedBatches = st.storage.flushedBatches ∧
    (processImgTag env domain st src).robotsFetched = st.robotsFetched := by
  cases src with
  | none => exact ⟨rfl, rfl, rfl⟩
  | some s =>
    by_cases hc : s ≠ "" ∧ pyStartsWith s "http"
    · simpa [processImgTag, hc] using downloadImage_proj env st s domain
    · simp [processImgTag, hc]

theorem processImgTag_storage_congr (env : Env) (domain : String)
    (st st' : ScrapeState) (src : Option String) (hst : st.storage = st'.storage) :
    (processImgTag env domain st src).storage
      = (processImgTag env domain st' src).storage := by
  cases src with
  | none => exact hst
  | some s =>
    by_cases hc : s ≠ "" ∧ pyStartsWith s "http"
    · simpa [processImgTag, hc] using downloadImage_storage_congr env st st' s domain hst
    · simpa [processImgTag, hc] using hst

theorem imgFold_proj (env : Env) (domain : String) :
    ∀ (srcs : List (Option String)) (st : ScrapeState),
    ((srcs.foldl (processImgTag env domain) st).storage.textStorage
        = st.storage.textStorage ∧
     (srcs.foldl (processImgTag env domain) st).storage.flushedBatches
        = st.storage.flushedBatches ∧
     (srcs.foldl (processImgTag env domain) st).robotsFetched = st.robotsFetched) := by
  intro srcs
  induction srcs with
  | nil => intro st; exact ⟨rfl, rfl, rfl⟩
  | cons s rest ih =>
    intro st
    have h1 := processImgTag_proj env domain st s
    have h2 := ih (processImgTag env domain st s)
    simp only [List.foldl_cons]
    exact ⟨h2.1.trans h1.1, h2.2.1.trans h1.2.1, h2.2.2.trans h1.2.2⟩

theorem imgFold_storage_congr (env : Env) (domain : String) :
    ∀ (srcs : List (Option String)) (st st' : ScrapeState),
    st.storage = st'.storage →
    (srcs.foldl (processImgTag env domain) st).storage
      = (srcs.foldl (processImgTag env domain) st').storage := by
  intro srcs
  induction srcs with
  | nil => intro st st' hst; exact hst
  | cons s rest ih =>
    intro st st' hst
    simp only [List.foldl_cons]
    exact ih _ _ (processImgTag_storage_congr env domain st st' s hst)

theorem scrapePage_storage_congr (cfg : Config) (env : Env)
    (st st' : ScrapeState) (url : String) (hst : st.storage = st'.storage) :
    (scrapePage cfg env st url).storage = (scrapePage cfg env st' url).storage := by
  cases hd : extractDomain url with
  | none => simpa [scrapePage, hd, addLog] using hst
  | some domain =>
    simp only [scrapePage, hd]
    split
    · split <;> simpa [addLog] using hst
    · split
      · split <;> simpa [addLog] using hst
      · split
        · split <;> simpa [addLog] using hst
        · split <;> (apply imgFold_storage_congr; split <;> simp [addLog, storeText, hst])

theorem scrapePage_fetchFail_storage (cfg : Config) (env : Env)
    (st : ScrapeState) (url domain : String)
    (hd : extractDomain url = some domain)
    (hfail : ∀ att, ∃ e, env.fetchPage url att = .error e) :
    (scrapePage cfg env st url).storage = st.storage := by
  have hfr : (retryRequest cfg.retryAttempts (env.fetchPage url)).1
      = .error "Maximum retry attempts reached." := by
    unfold retryRequest
    rw [retryRequestFrom_all_error _ hfail cfg.retryAttempts 1]
  simp only [scrapePage, hd, hfr]
  split <;> split <;> simp [addLog]

theorem scrapePage_robotsFetched (cfg : Config) (env : Env)
    (st : ScrapeState) (url domain : String)
    (hd : extractDomain url = some domain) :
    (scrapePage cfg env st url).robotsFetched = st.robotsFetched ++ [domain] := by
  simp only [scrapePage, hd]
  split
  · split <;> simp [addLog]
  · split
    · split <;> simp [addLog]
    · split
      · split <;> simp [addLog]
      · split <;> (rw [(imgFold_proj _ _ _ _).2.2]; split <;> simp [addLog])

theorem runScraper_storage_congr (cfg : Config) (env : Env) :
    ∀ (urls : List String) (st st' : ScrapeState), st.storage = st'.storage →
    (runScraper cfg env st urls).storage = (runScraper cfg env st' urls).storage := by
  intro urls
  induction urls with
  | nil => intro st st' hst; exact hst
  | cons u rest ih =>
    intro st st' hst
    simp only [runScraper, List.foldl_cons]
    exact ih _ _ (scrapePage_storage_congr cfg env st st' u hst)

/-! ## Claims -/

/-- **C8.** For every text strictly shorter than `min_text_length`
characters, `validate_content` returns false, regardless of the
language-detection outcome and of blocklist content. -/
theorem C8_short_text_rejected (cfg : Config) (detect : String → Option String)
    (text : String) (h : text.length < cfg.minTextLength) :
    validateContent cfg detect text = false := by
  simp [validateContent, h]

theorem C8_witness :
    validateContent CONFIG (fun _ => some "en") "short" = false :=
  C8_short_text_rejected CONFIG (fun _ => some "en") "short" (by decide)

/-- **C9.** For every text containing a configured blocklist phrase in
any letter casing (equivalently: whose lowercasing contains the
lowercased phrase), `validate_content` returns false, whatever the
length and detected language. -/
theorem C9_blocklist_rejected (cfg : Config) (detect : String → Option String)
    (text phrase : String) (hmem : phrase ∈ cfg.blocklistPhrases)
    (hsub : pyContains (pyLower text) (pyLower phrase) = true) :
    validateContent cfg detect text = false := by
  unfold validateContent
  split
  · rfl
  · have hany : cfg.blocklistPhrases.any
        (fun p => pyContains (pyLower text) (pyLower p)) = true :=
      List.any_eq_true.mpr ⟨phrase, hmem, hsub⟩
    simp [hany]

theorem C9_witness :
    validateContent CONFIG (fun _ => some "en")
      (String.mk (List.replicate 500 'a') ++ "LoReM IpSuM") = false :=
  C9_blocklist_rejected CONFIG (fun _ => some "en")
    (String.mk (List.replicate 500 'a') ++ "LoReM IpSuM") "lorem ipsum"
    (by decide) (by decide)

/-- **C7.** After any `store_text` call the buffer holds strictly fewer
than `max_storage` records (given a positive threshold), and a call
that makes the buffer reach exactly `max_storage` triggers exactly one
flush — one new batch holding the whole buffer — leaving the buffer
empty. -/
theorem C7_buffer_threshold (s : Storage) (r : TextRecord)
    (hmax : 1 ≤ s.maxStorage) :
    (storeText s r).textStorage.length < s.maxStorage ∧
    (s.textStorage.length + 1 = s.maxStorage →
      (storeText s r).textStorage = [] ∧
      (storeText s r).flushedBatches = s.flushedBatches ++ [s.textStorage ++ [r]]) := by
  unfold storeText flushTextStorage
  by_cases hge : (s.textStorage ++ [r]).length ≥ s.maxStorage
  · simp only [hge, if_true]
    simp
    omega
  · simp only [hge, if_false]
    simp at hge
    constructor
    · simpa using hge
    · intro habs
      omega

theorem C7_witness :
    (storeText ⟨2, [⟨"u", "c", "t", "d"⟩], [], [], []⟩ ⟨"v", "e", "s", "f"⟩).textStorage.length
        < (2 : Nat) ∧
    ((1 : Nat) + 1 = 2 →
      (storeText ⟨2, [⟨"u", "c", "t", "d"⟩], [], [], []⟩ ⟨"v", "e", "s", "f"⟩).textStorage = [] ∧
      (storeText ⟨2, [⟨"u", "c", "t", "d"⟩], [], [], []⟩ ⟨"v", "e", "s", "f"⟩).flushedBatches
        = [] ++ [[⟨"u", "c", "t", "d"⟩, ⟨"v", "e", "s", "f"⟩]]) :=
  C7_buffer_threshold ⟨2, [⟨"u", "c", "t", "d"⟩], [], [], []⟩ ⟨"v", "e", "s", "f"⟩ (by decide)

/-- **C6.** The generated image filename
`{domain}_{sha256(content)}.{format}` is a pure function of the raw
bytes and the domain (the format itself being decoded from the bytes),
and two byte-streams with distinct SHA-256 digests from the same domain
never collide (collision-freedom of SHA-256 itself is the spec's
stated design assumption). -/
theorem C6_filename_content_addressed (decode : List Nat → Option ImgInfo)
    (domain : String) (c1 c2 : List Nat) (i1 i2 : ImgInfo)
    (h1 : decode c1 = some i1) (h2 : decode c2 = some i2) :
    (c1 = c2 → imageFilename domain c1 i1.format = imageFilename domain c2 i2.format) ∧
    (sha256hex c1 ≠ sha256hex c2 →
      imageFilename domain c1 i1.format ≠ imageFilename domain c2 i2.format) := by
  constructor
  · intro hc
    subst hc
    rw [h1] at h2
    cases h2
    rfl
  · intro hne heq
    apply hne
    have hd : (imageFilename domain c1 i1.format).data
        = (imageFilename domain c2 i2.format).data := by rw [heq]
    unfold imageFilename at hd
    simp only [String.data_append, List.append_assoc] at hd
    have hd2 := List.append_cancel_left hd
    have hd3 := List.append_cancel_left hd2
    exact string_data_inj (List.append_inj_left hd3
      (by rw [sha256hex_data_length, sha256hex_data_length]))

theorem C6_witness :
    imageFilename "example.com" [0] (ImgInfo.mk "PNG" 1 1).format
      ≠ imageFilename "example.com" [1] (ImgInfo.mk "PNG" 1 1).format :=
  (C6_filename_content_addressed (fun _ => some (ImgInfo.mk "PNG" 1 1))
    "example.com" [0] [1] (ImgInfo.mk "PNG" 1 1) (ImgInfo.mk "PNG" 1 1)
    rfl rfl).2 (by decide)

/-- **C10.** An image download is attempted exactly for `<img>`
elements whose `src` is present, non-empty and starts with `http`;
a missing, relative, protocol-relative, `data:` or otherwise
non-`http`-prefixed `src` leaves the state completely unchanged — no
record, no file write, no log line. -/
theorem C10_img_src_filter (env : Env) (domain : String) (st : ScrapeState) :
    (processImgTag env domain st none = st) ∧
    (∀ s, pyStartsWith s "http" = false → processImgTag env domain st (some s) = st) ∧
    (∀ s, s ≠ "" → pyStartsWith s "http" = true →
      processImgTag env domain st (some s) = downloadImage env st s domain) := by
  refine ⟨rfl, ?_, ?_⟩
  · intro s h
    simp [processImgTag, h]
  · intro s hne h
    simp [processImgTag, hne, h]

theorem C10_witness :
    processImgTag twoPageEnv "example.com" (initState CONFIG)
      (some "/relative/img.png") = initState CONFIG :=
  (C10_img_src_filter twoPageEnv "example.com" (initState CONFIG)).2.1
    "/relative/img.png" (by decide)

/-- **C1** — refutation of the claim on the code (the spec's stated
fail-open intent is not what the code does).  When the robots.txt read
raises, `get_robots_parser` returns a parser whose `last_checked` was
never set, and CPython's `can_fetch` then answers `False` for every
URL; `scrape_page` therefore skips the task (fail-closed): storage is
untouched, the page fetch never happens, and the log records the
read warning followed by a "robots.txt restrictions" skip. -/
theorem C1_robots_read_error_fails_closed (cfg : Config) (env : Env)
    (st : ScrapeState) (url domain msg : String)
    (hd : extractDomain url = some domain)
    (hr : env.robotsRead domain = .raised msg) :
    canFetch (getRobotsParser (env.robotsRead domain)) "*" url = false ∧
    (scrapePage cfg env st url).storage = st.storage ∧
    (scrapePage cfg env st url).logs = st.logs ++
      ["WARNING Could not read robots.txt from https://" ++ domain,
       "WARNING Skipping " ++ url ++ " due to robots.txt restrictions"] := by
  have hcf : canFetch (getRobotsParser (RobotsReadOutcome.raised msg)) "*" url = false := rfl
  have hs : scrapePage cfg env st url =
      addLog (addLog { st with robotsFetched := st.robotsFetched ++ [domain] }
        ("WARNING Could not read robots.txt from https://" ++ domain))
        ("WARNING Skipping " ++ url ++ " due to robots.txt restrictions") := by
    simp only [scrapePage, hd, hr, hcf, if_true]
  refine ⟨by rw [hr]; exact hcf, ?_, ?_⟩ <;> rw [hs] <;> simp [addLog]

theorem C1_witness :
    canFetch (getRobotsParser (robotsErrEnv.robotsRead "example.com")) "*" goodUrl = false ∧
    (scrapePage CONFIG robotsErrEnv (initState CONFIG) goodUrl).storage
      = (initState CONFIG).storage ∧
    (scrapePage CONFIG robotsErrEnv (initState CONFIG) goodUrl).logs
      = (initState CONFIG).logs ++
        ["WARNING Could not read robots.txt from https://" ++ "example.com",
         "WARNING Skipping " ++ goodUrl ++ " due to robots.txt restrictions"] :=
  C1_robots_read_error_fails_closed CONFIG robotsErrEnv (initState CONFIG)
    goodUrl "example.com" "timed out" (by decide) rfl

/-! Retry lemmas for C3. -/

theorem sessionGetAux_persistent_503 (pages : Nat → Page) :
    ∀ remaining i, sessionGetAux (fun j => .status 503 (pages j)) remaining i
      = .error "RetryError: too many error responses" := by
  intro remaining
  induction remaining with
  | zero => intro i; simp [sessionGetAux, statusForcelist]
  | succ r ih => intro i; simpa [sessionGetAux, statusForcelist] using ih (i + 1)

/-- **C3.** Against a server persistently answering 503 the adapter
makes `session.get` itself raise, so `retry_request` calls the fetch
exactly `retry_attempts` times and then fails with the single
aggregated "Maximum retry attempts reached." error; against a 404 the
response is returned on the first call — no retry — and
`raise_for_status` surfaces the failure immediately. -/
theorem C3_retry_503_no_retry_404 (cfg : Config) (pages : Nat → Page) (p : Page)
    (hattempts : 1 ≤ cfg.retryAttempts) :
    (retryRequest cfg.retryAttempts
        (fun _ => sessionGet cfg.retryAttempts (fun i => .status 503 (pages i)))
      = (.error "Maximum retry attempts reached.", cfg.retryAttempts)) ∧
    (retryRequest cfg.retryAttempts
        (fun _ => sessionGet cfg.retryAttempts (fun _ => .status 404 p))
      = (.ok ⟨404, p⟩, 1)) ∧
    raiseForStatus ⟨404, p⟩ = .error "HTTPError: 404" := by
  refine ⟨?_, ?_, by show Except.error ("HTTPError: " ++ toString 404) = _; rfl⟩
  · exact retryRequestFrom_all_error _
      (fun _ => ⟨_, sessionGetAux_persistent_503 pages cfg.retryAttempts 0⟩)
      cfg.retryAttempts 1
  · obtain ⟨r, hr⟩ : ∃ r, cfg.retryAttempts = r + 1 :=
      ⟨cfg.retryAttempts - 1, by omega⟩
    rw [hr]
    have hok : sessionGet (r + 1) (fun _ => WireOutcome.status 404 p)
        = .ok ⟨404, p⟩ := by
      simp [sessionGet, sessionGetAux, statusForcelist]
    simp [retryRequest, retryRequestFrom, hok]

theorem C3_witness :
    (retryRequest CONFIG.retryAttempts
        (fun _ => sessionGet CONFIG.retryAttempts (fun _ => .status 503 emptyPage))
      = (.error "Maximum retry attempts reached.", CONFIG.retryAttempts)) ∧
    (retryRequest CONFIG.retryAttempts
        (fun _ => sessionGet CONFIG.retryAttempts (fun _ => .status 404 emptyPage))
      = (.ok ⟨404, emptyPage⟩, 1)) ∧
    raiseForStatus ⟨404, emptyPage⟩ = .error "HTTPError: 404" :=
  C3_retry_503_no_retry_404 CONFIG (fun _ => emptyPage) emptyPage (by decide)

/-- **C2** — refutation of the claim at a concrete input: a run over
two seed URLs sharing the domain `example.com` performs two robots.txt
fetches for that domain, not at most one; no cache exists. -/
theorem C2_counterexample :
    (mainRun CONFIG twoPageEnv [goodUrl, badUrl]).robotsFetched
      = ["example.com", "example.com"] ∧
    ¬ ((mainRun CONFIG twoPageEnv [goodUrl, badUrl]).robotsFetched.count
        "example.com" ≤ 1) := by
  decide

/-- **C2** (amended): robots.txt is fetched and parsed once per task —
per `scrape_page` call — not once per domain per run: every seed URL
with a well-formed domain triggers its own robots fetch, so `n` seed
URLs from one domain cause `n` fetches. -/
theorem C2_amended_robots_fetch_per_task (cfg : Config) (env : Env) :
    ∀ (urls : List String) (st : ScrapeState),
    (∀ u ∈ urls, ∃ d, extractDomain u = some d) →
    (runScraper cfg env st urls).robotsFetched.length
      = st.robotsFetched.length + urls.length := by
  intro urls
  induction urls with
  | nil => intro st _; simp [runScraper]
  | cons u rest ih =>
    intro st h
    obtain ⟨d, hd⟩ := h u (by simp)
    have h2 : ∀ v ∈ rest, ∃ d, extractDomain v = some d :=
      fun v hv => h v (by simp [hv])
    have hrest := ih (scrapePage cfg env st u) h2
    simp only [runScraper, List.foldl_cons] at hrest ⊢
    rw [hrest, scrapePage_robotsFetched cfg env st u d hd]
    simp
    omega

theorem C2_witness :
    (runScraper CONFIG twoPageEnv (initState CONFIG) [goodUrl, badUrl]).robotsFetched.length
      = (initState CONFIG).robotsFetched.length + 2 :=
  C2_amended_robots_fetch_per_task CONFIG twoPageEnv [goodUrl, badUrl]
    (initState CONFIG)
    (by
      intro u hu
      rcases List.mem_cons.mp hu with rfl | hu
      · exact ⟨"example.com", by decide⟩
      rcases List.mem_cons.mp hu with rfl | hu
      · exact ⟨"example.com", by decide⟩
      · exact absurd hu (List.not_mem_nil u))

/-- **C4.** A task whose page fetch persistently raises contributes
nothing to storage: dropping it from the seed list leaves the storage
outcome of the whole run unchanged, so its failure never aborts or
affects sibling tasks.  And the spec's two-URL scenario: one 200 page
with 600 characters of valid English text plus one 404 page store
exactly one TextRecord, the run completes with one fetch-error log,
and the final flush writes exactly one batch holding that record. -/
theorem C4_task_failure_isolated (cfg : Config) (env : Env) (st : ScrapeState)
    (pre post : List String) (u d : String)
    (hd : extractDomain u = some d)
    (hfail : ∀ att, ∃ e, env.fetchPage u att = .error e) :
    ((runScraper cfg env st (pre ++ u :: post)).storage
      = (runScraper cfg env st (pre ++ post)).storage) ∧
    ((mainRun CONFIG twoPageEnv [goodUrl, badUrl]).storage.flushedBatches
        = [[scenRecord]] ∧
     (mainRun CONFIG twoPageEnv [goodUrl, badUrl]).storage.textStorage = [] ∧
     (mainRun CONFIG twoPageEnv [goodUrl, badUrl]).logs
        = ["INFO Scraped and stored text from " ++ goodUrl,
           "ERROR Error scraping " ++ badUrl]) := by
  constructor
  · have h1 : runScraper cfg env st (pre ++ u :: post)
        = runScraper cfg env (scrapePage cfg env (runScraper cfg env st pre) u) post := by
      simp [runScraper, List.foldl_append]
    have h2 : runScraper cfg env st (pre ++ post)
        = runScraper cfg env (runScraper cfg env st pre) post := by
      simp [runScraper, List.foldl_append]
    rw [h1, h2]
    exact runScraper_storage_congr cfg env post _ _
      (scrapePage_fetchFail_storage cfg env (runScraper cfg env st pre) u d hd hfail)
  · exact ⟨by decide, by decide, by decide⟩

theorem C4_witness :
    ((runScraper CONFIG fetchErrEnv (initState CONFIG) ([] ++ badUrl :: [goodUrl])).storage
      = (runScraper CONFIG fetchErrEnv (initState CONFIG) ([] ++ [goodUrl])).storage) ∧
    ((mainRun CONFIG twoPageEnv [goodUrl, badUrl]).storage.flushedBatches
        = [[scenRecord]] ∧
     (mainRun CONFIG twoPageEnv [goodUrl, badUrl]).storage.textStorage = [] ∧
     (mainRun CONFIG twoPageEnv [goodUrl, badUrl]).logs
        = ["INFO Scraped and stored text from " ++ goodUrl,
           "ERROR Error scraping " ++ badUrl]) :=
  C4_task_failure_isolated CONFIG fetchErrEnv (initState CONFIG) [] [goodUrl]
    badUrl "example.com" (by decide) (fun _ => ⟨"ConnectionError", rfl⟩)

/-- **C5.** A failing image acquisition (network error, non-2xx
status, or invalid decode) is absorbed inside `download`: it changes
nothing but one error log line; removing the failing `<img>` from the
page leaves the storage outcome of the image pass unchanged (so the
other images are unaffected); and the whole image pass never touches
the text buffer or the flushed batches, so the page's text outcome is
unaffected. -/
theorem C5_image_failure_isolated (env : Env) (domain : String)
    (st : ScrapeState) (url : String) (srcs1 srcs2 : List (Option String))
    (hfail : imageAcquireFails env url) :
    ((downloadImage env st url domain).storage = st.storage ∧
     (downloadImage env st url domain).logs
        = st.logs ++ ["ERROR Error downloading image " ++ url]) ∧
    (((srcs1 ++ some url :: srcs2).foldl (processImgTag env domain) st).storage
      = ((srcs1 ++ srcs2).foldl (processImgTag env domain) st).storage) ∧
    (∀ srcs : List (Option String),
      (srcs.foldl (processImgTag env domain) st).storage.textStorage
          = st.storage.textStorage ∧
      (srcs.foldl (processImgTag env domain) st).storage.flushedBatches
          = st.storage.flushedBatches) := by
  refine ⟨downloadImage_fail env st url domain hfail, ?_, ?_⟩
  · rw [List.foldl_append, List.foldl_append, List.foldl_cons]
    apply imgFold_storage_congr
    by_cases hc : url ≠ "" ∧ pyStartsWith url "http"
    · simp only [processImgTag]
      rw [if_pos hc]
      exact (downloadImage_fail env _ url domain hfail).1
    · simp [processImgTag, hc]
  · intro srcs
    exact ⟨(imgFold_proj env domain srcs st).1, (imgFold_proj env domain srcs st).2.1⟩

theorem C5_witness :
    ((downloadImage imgEnv (initState CONFIG) "https://example.com/bad.png"
        "example.com").storage = (initState CONFIG).storage ∧
     (downloadImage imgEnv (initState CONFIG) "https://example.com/bad.png"
        "example.com").logs = (initState CONFIG).logs ++
          ["ERROR Error downloading image " ++ "https://example.com/bad.png"]) ∧
    ((([some "https://example.com/good.png"]
        ++ some "https://example.com/bad.png" :: []).foldl
        (processImgTag imgEnv "example.com") (initState CONFIG)).storage
      = (([some "https://example.com/good.png"] ++ []).foldl
          (processImgTag imgEnv "example.com") (initState CONFIG)).storage) ∧
    (∀ srcs : List (Option String),
      (srcs.foldl (processImgTag imgEnv "example.com") (initState CONFIG)).storage.textStorage
          = (initState CONFIG).storage.textStorage ∧
      (srcs.foldl (processImgTag imgEnv "example.com") (initState CONFIG)).storage.flushedBatches
          = (initState CONFIG).storage.flushedBatches) :=
  C5_image_failure_isolated imgEnv "example.com" (initState CONFIG)
    "https://example.com/bad.png" [some "https://example.com/good.png"] []
    (Or.inr (Or.inl ⟨404, [], rfl, by decide⟩))

end InfoScraper
